import Mathlib

/-!
Shallow embedding of the Poseidon surf-forecast bot (src/app.py) for the
Multi-Source Forecast Reconciliation Engine and the Conversation Session
Lifecycle Controller.

Modelling conventions:
- Numbers the Python code handles as floats are modelled as rationals; every
  numeric literal appearing in the program and in the plausibility ranges is
  exactly representable, so no rounding behaviour is lost.  Decimal literals
  are written with mkRat (for example 1.3 is mkRat 13 10) so that concrete
  evaluations reduce.
- Python string primitives (lower, strip, split, substring membership) are
  modelled by structurally recursive functions on the character list of the
  string, because the corresponding core String functions do not evaluate
  under the kernel.
- The forecast dictionaries have a fixed key set and are modelled as
  structures; a missing key behaves exactly like an empty list, because the
  code reads every key with dict.get and only tests truthiness or iterates.
- The three backend outcomes (lines 433-450: an exception or a None result
  from parse_with_openai, parse_with_deepseek, fetch_windy_api_data) reach
  merge_triple_ai_data as Optional values, modelled as Option SurfData.
- random.choice over the two fallback condition profiles (line 745) is
  modelled by an explicit Bool argument.
- datetime.utcnow().date() (lines 855, 862) is modelled by an explicit
  today argument.
-/

namespace SurfHunter

/-- Tide block of one dataset: the tides sub-dictionary of app.py
(high_times, high_heights, low_times, low_heights). -/
structure Tides where
  high_times : List String
  high_heights : List ℚ
  low_times : List String
  low_heights : List ℚ
  deriving DecidableEq

/-- One candidate or merged forecast dataset, the dictionary shape produced by
the backends (lines 125-132, 184, 237), by merge_triple_ai_data (lines
300-308) and by generate_dynamic_fallback_data (lines 747-760).  The success
key is absent on backend candidates and read only by validate_surf_data. -/
structure SurfData where
  source : String
  success : Bool
  wave_data : List ℚ
  period_data : List ℚ
  power_data : List ℚ
  wind_data : List ℚ
  tides : Tides
  deriving DecidableEq

/-- Empty tides dictionary. -/
def emptyTides : Tides := { high_times := [], high_heights := [], low_times := [], low_heights := [] }

/-- Python max over a list, used by the source only on nonempty lists
(it is always guarded by a truthiness check); 0 on the empty list. -/
def listMax : List ℚ → ℚ
  | [] => 0
  | q :: l => l.foldl max q

/-- calculate_data_quality_score, src/app.py lines 247-273.
+20 for each of wave_data, period_data, wind_data that is truthy and has at
least 6 entries; +20 if the tides dictionary is truthy and has truthy
high_times and low_times; +10 if wave_data is truthy and its max lies in
[0.5, 5.0]; +10 if period_data is truthy and its max lies in [5.0, 20.0]. -/
def calculate_data_quality_score (d : SurfData) : ℕ :=
  (if d.wave_data ≠ [] ∧ 6 ≤ d.wave_data.length then 20 else 0) +
  (if d.period_data ≠ [] ∧ 6 ≤ d.period_data.length then 20 else 0) +
  (if d.wind_data ≠ [] ∧ 6 ≤ d.wind_data.length then 20 else 0) +
  (if d.tides.high_times ≠ [] ∧ d.tides.low_times ≠ [] then 20 else 0) +
  (if d.wave_data ≠ [] ∧ mkRat 1 2 ≤ listMax d.wave_data ∧ listMax d.wave_data ≤ 5 then 10 else 0) +
  (if d.period_data ≠ [] ∧ (5 : ℚ) ≤ listMax d.period_data ∧ listMax d.period_data ≤ 20 then 10 else 0)

/-- First hand-authored condition profile of generate_dynamic_fallback_data
(lines 731-736): wave, period, power, wind, decimals written in tenths. -/
def fallbackProfileA : List ℚ × List ℚ × List ℚ × List ℚ :=
  ([mkRat 13 10, mkRat 13 10, mkRat 14 10, mkRat 14 10, mkRat 14 10,
    mkRat 14 10, mkRat 14 10, mkRat 14 10, mkRat 15 10, mkRat 15 10],
   [mkRat 146 10, mkRat 143 10, mkRat 139 10, mkRat 127 10, mkRat 120 10,
    mkRat 119 10, mkRat 117 10, mkRat 115 10, mkRat 113 10, mkRat 111 10],
   [736, 744, 730, 628, 570, 559, 555, 553, 555, 558],
   [mkRat 6 10, mkRat 13 10, mkRat 9 10, mkRat 13 10, mkRat 30 10,
    mkRat 38 10, mkRat 34 10, mkRat 19 10, mkRat 10 10, mkRat 6 10])

/-- Second hand-authored condition profile (lines 737-742). -/
def fallbackProfileB : List ℚ × List ℚ × List ℚ × List ℚ :=
  ([mkRat 17 10, mkRat 16 10, mkRat 16 10, mkRat 15 10, mkRat 15 10,
    mkRat 14 10, mkRat 14 10, mkRat 14 10, mkRat 13 10, mkRat 13 10],
   [mkRat 102 10, mkRat 102 10, mkRat 100 10, mkRat 99 10, mkRat 97 10,
    mkRat 98 10, mkRat 92 10, mkRat 92 10, mkRat 90 10, mkRat 89 10],
   [586, 547, 501, 454, 412, 396, 331, 317, 291, 277],
   [mkRat 13 10, mkRat 16 10, mkRat 6 10, mkRat 24 10, mkRat 36 10,
    mkRat 39 10, mkRat 6 10, mkRat 5 10, mkRat 2 10, mkRat 8 10])

/-- generate_dynamic_fallback_data, lines 728-760.  random.choice over the
two profiles is modelled by the rnd argument. -/
def generate_dynamic_fallback_data (rnd : Bool) : SurfData :=
  let chosen := if rnd then fallbackProfileA else fallbackProfileB
  { source := "dynamic_fallback"
    success := true
    wave_data := chosen.1
    period_data := chosen.2.1
    power_data := chosen.2.2.1
    wind_data := chosen.2.2.2
    tides := { high_times := ["10:20", "22:10"], high_heights := [mkRat 25 10, mkRat 32 10],
               low_times := ["04:10", "16:00"], low_heights := [mkRat 1 10, mkRat 7 10] } }

/-- One step of the scoring loop of merge_triple_ai_data (lines 284-289):
a None source contributes nothing, a present one contributes the triple
(data, name, quality score). -/
def maybeScore : Option SurfData → String → List (SurfData × String × ℕ)
  | none, _ => []
  | some d, n => [(d, n, calculate_data_quality_score d)]

/-- The scored_sources list of merge_triple_ai_data (lines 277-289), built
from the fixed source list [(openai, OpenAI), (deepseek, DeepSeek),
(windy, Windy API)] keeping only present sources, in that order. -/
def scored_sources (od dd wd : Option SurfData) : List (SurfData × String × ℕ) :=
  maybeScore od "OpenAI" ++ maybeScore dd "DeepSeek" ++ maybeScore wd "Windy API"

/-- Python max(iterable, key=lambda x: x[2]) over a nonempty list given as
head and tail: the accumulator is replaced only on a strictly larger key, so
the earliest element wins ties (line 295). -/
def pyMaxByScore : SurfData × String × ℕ → List (SurfData × String × ℕ) → SurfData × String × ℕ
  | acc, [] => acc
  | acc, x :: xs => pyMaxByScore (if acc.2.2 < x.2.2 then x else acc) xs

/-- The best source selected at line 295, none when every source failed. -/
def best_of (od dd wd : Option SurfData) : Option (SurfData × String × ℕ) :=
  match scored_sources od dd wd with
  | [] => none
  | x :: xs => some (pyMaxByScore x xs)

/-- One iteration of the gap-filling loop (lines 311-316): a source whose
name differs from the best name donates each of the four sequence fields
whose current merged value is empty and whose own value is truthy. -/
def fillFrom (bestName : String) (m : SurfData) (x : SurfData × String × ℕ) : SurfData :=
  if x.2.1 ≠ bestName then
    { m with
      wave_data := if m.wave_data = [] ∧ x.1.wave_data ≠ [] then x.1.wave_data else m.wave_data
      period_data := if m.period_data = [] ∧ x.1.period_data ≠ [] then x.1.period_data else m.period_data
      power_data := if m.power_data = [] ∧ x.1.power_data ≠ [] then x.1.power_data else m.power_data
      wind_data := if m.wind_data = [] ∧ x.1.wind_data ≠ [] then x.1.wind_data else m.wind_data }
  else m

/-- Lines 300-308: the merged dictionary seeded from the best source:
success True, source triple_merge_ followed by the best name, the best
source's four sequence fields and its tides. -/
def mergedBase (best : SurfData × String × ℕ) : SurfData :=
  { source := "triple_merge_" ++ best.2.1
    success := true
    wave_data := best.1.wave_data
    period_data := best.1.period_data
    power_data := best.1.power_data
    wind_data := best.1.wind_data
    tides := best.1.tides }

/-- Lines 299-317: the seeded merged dictionary followed by the
gap-filling loop over all scored sources. -/
def mergeFromBest (l : List (SurfData × String × ℕ)) (best : SurfData × String × ℕ) : SurfData :=
  l.foldl (fillFrom best.2.1) (mergedBase best)

/-- merge_triple_ai_data, src/app.py lines 275-318.  When every source is
None the scored list is empty and the dynamic fallback is returned (lines
291-292); otherwise the merge is seeded from the best-scoring source and
gap-filled from the others. -/
def merge_triple_ai_data (od dd wd : Option SurfData) (rnd : Bool) : SurfData :=
  match best_of od dd wd with
  | none => generate_dynamic_fallback_data rnd
  | some best => mergeFromBest (scored_sources od dd wd) best

/-- validate_surf_data, lines 762-793.  False when the success key is falsy,
false when none of the four arrays has at least 6 entries; afterwards the
range checks wave_ok, period_ok, power_ok are computed by the source only to
log warnings and do not affect the result, which is True on every remaining
path. -/
def validate_surf_data (d : SurfData) : Bool :=
  if ¬ d.success then false
  else if ¬ ((d.wave_data ≠ [] ∧ 6 ≤ d.wave_data.length) ∨
             (d.period_data ≠ [] ∧ 6 ≤ d.period_data.length) ∨
             (d.power_data ≠ [] ∧ 6 ≤ d.power_data.length) ∨
             (d.wind_data ≠ [] ∧ 6 ≤ d.wind_data.length)) then false
  else true

/-! ### Conversation session state (USER_STATE and the two handlers) -/

/-- The per-chat dictionary stored in USER_STATE (line 36).  The handlers
only ever read the two keys active and awaiting_feedback with dict.get, so a
missing key is the same as False. -/
structure ChatState where
  active : Bool
  awaiting_feedback : Bool
  deriving DecidableEq

/-- The empty dictionary returned by USER_STATE.get(chat_id, ...) when the
chat has no entry: both flags falsy. -/
def emptyState : ChatState := { active := false, awaiting_feedback := false }

/-- USER_STATE.get(chat_id, empty dict). -/
def stateOf (st : Option ChatState) : ChatState := st.getD emptyState

/-- The session phases of the specification, section 3.  The code encoding:
a chat with awaiting_feedback True always also has active True (the only
write of awaiting_feedback True is line 489, which sets both), so
AwaitingAck is modelled as active and awaiting_feedback both true, Active as
active without awaiting_feedback, and everything else (including a missing
entry) as Idle. -/
inductive Phase
  | Idle
  | Active
  | AwaitingAck
  deriving DecidableEq

/-- Map a stored chat state to the phase of the specification. -/
def sessionPhase (st : Option ChatState) : Phase :=
  match st with
  | none => Phase.Idle
  | some s =>
    if s.active then (if s.awaiting_feedback then Phase.AwaitingAck else Phase.Active)
    else Phase.Idle

/-- Boolean matching of a leading segment of character lists. -/
def leadMatch : List Char → List Char → Bool
  | [], _ => true
  | _ :: _, [] => false
  | a :: as, b :: bs => a == b && leadMatch as bs

/-- Boolean substring occurrence on character lists. -/
def containsChars (pat : List Char) : List Char → Bool
  | [] => pat.isEmpty
  | c :: rest => leadMatch pat (c :: rest) || containsChars pat rest

/-- Python substring membership, pat in s. -/
def containsSubstr (s pat : String) : Bool := containsChars pat.toList s.toList

/-- Python-style lowercase of one character for the alphabets the program
handles: ASCII letters (the spot keys) and the Russian Cyrillic block (the
trigger and feedback phrases). -/
def charLower (c : Char) : Char :=
  if 65 ≤ c.toNat ∧ c.toNat ≤ 90 then Char.ofNat (c.toNat + 32)
  else if 1040 ≤ c.toNat ∧ c.toNat ≤ 1071 then Char.ofNat (c.toNat + 32)
  else if c.toNat = 1025 then Char.ofNat 1105
  else c

/-- Python str.lower, character by character. -/
def pyLower (s : String) : String := String.mk (s.toList.map charLower)

/-- Python str.strip: drop leading and trailing whitespace. -/
def pyStrip (s : String) : String :=
  String.mk (((s.toList.dropWhile Char.isWhitespace).reverse.dropWhile Char.isWhitespace).reverse)

/-- Helper of pySplit: cur is the current word accumulated in reverse. -/
def splitWsAux : List Char → List Char → List (List Char)
  | cur, [] => if cur.isEmpty then [] else [cur.reverse]
  | cur, c :: rest =>
    if c.isWhitespace then
      (if cur.isEmpty then splitWsAux [] rest else cur.reverse :: splitWsAux [] rest)
    else splitWsAux (c :: cur) rest

/-- Python str.split with no separator: split on whitespace runs, never
producing empty pieces (so leading and trailing whitespace is ignored and a
preceding strip is absorbed). -/
def pySplit (s : String) : List String := (splitWsAux [] s.toList).map String.mk

/-- The activation trigger phrase checked at line 875. -/
def triggerPhrase : String := "посейдон на связь"

/-- The positive feedback keyword checked at line 889. -/
def ackGood : String := "отлично"

/-- The negative feedback keyword checked at line 891. -/
def ackBad : String := "не очень"

/-- Which reply handle_message sends; the state transition is what the
claims are about, the reply text itself is presentation. -/
inductive MsgReply
  | greeting
  | feedbackGood
  | feedbackBad
  | feedbackOther
  | ignored
  | prompt
  deriving DecidableEq

/-- handle_message, src/app.py lines 870-909: new stored state and reply.
The trigger check (line 875) runs first and stores a dictionary with only
active True; any text in the awaiting_feedback state stores active True and
awaiting_feedback False (line 897); otherwise an inactive chat is ignored
with no write and an active one is prompted with no write. -/
def handle_message (st : Option ChatState) (rawText : String) : Option ChatState × MsgReply :=
  let text := pyStrip (pyLower rawText)
  if containsSubstr (pyLower text) triggerPhrase then
    (some { active := true, awaiting_feedback := false }, MsgReply.greeting)
  else
    let state := stateOf st
    if state.awaiting_feedback then
      (some { active := true, awaiting_feedback := false },
       if containsSubstr text ackGood then MsgReply.feedbackGood
       else if containsSubstr text ackBad then MsgReply.feedbackBad
       else MsgReply.feedbackOther)
    else if ¬ state.active then (st, MsgReply.ignored)
    else (st, MsgReply.prompt)

/-- The static spot table BALI_SPOTS (lines 39-53), key and display name;
the coordinates are consumed only by the network call and play no role in
any claim. -/
def BALI_SPOTS : List (String × String) :=
  [("uluwatu", "Uluwatu"), ("balangan", "Balangan Beach"), ("kuta", "Kuta Beach"),
   ("canggu", "Canggu"), ("padangpadang", "Padang Padang"), ("batubolong", "Batu Bolong"),
   ("bingin", "Bingin"), ("impossibles", "Impossibles"), ("dreamland", "Dreamland"),
   ("greenbowl", "Green Bowl"), ("nyangnyang", "Nyang Nyang"), ("suluban", "Suluban"),
   ("keramas", "Keramas")]

/-- The spot keys, the membership domain of the caption check at line 865. -/
def spotKeys : List String := BALI_SPOTS.map Prod.fst

/-- The default spot used at lines 480 and 866. -/
def defaultSpot : String := "uluwatu"

/-- parse_caption_for_location_date, lines 852-868.  A missing or empty
caption and a whitespace-only caption give the default spot and today; the
first token lowercased is the spot, replaced by the default when it is not a
key of BALI_SPOTS; the second token, when present, is the date. -/
def parse_caption_for_location_date (caption : Option String) (today : String) : String × String :=
  match caption with
  | none => (defaultSpot, today)
  | some c =>
    if c = "" then (defaultSpot, today)
    else
      match pySplit c with
      | [] => (defaultSpot, today)
      | p0 :: rest =>
        let location := pyLower p0
        let date := match rest with | [] => today | d :: _ => d
        (if location ∈ spotKeys then location else defaultSpot, date)

/-- What handle_photo did: refused is the fixed rage reply of line 466 with
an immediate return; processed records that the triple-AI reconciliation was
started (line 483) with the given spot and date. -/
inductive PhotoOutcome
  | refused
  | processed (spot : String) (date : String)
  deriving DecidableEq

/-- handle_photo, src/app.py lines 461-497, restricted to its state and
control-flow effect: a chat whose active flag is falsy gets the fixed
refusal and no state write; otherwise the caption (or the empty string) is
parsed, an empty location is replaced by the default spot, reconciliation is
invoked with that spot and date, and the chat state is set to active and
awaiting_feedback (line 489). -/
def handle_photo (st : Option ChatState) (caption : Option String) (today : String) :
    Option ChatState × PhotoOutcome :=
  if ¬ (stateOf st).active then (st, PhotoOutcome.refused)
  else
    let cap := caption.getD ""
    let pair := parse_caption_for_location_date (some cap) today
    let location := if pair.1 = "" then defaultSpot else pair.1
    (some { active := true, awaiting_feedback := true }, PhotoOutcome.processed location pair.2)

/-- The passage of time alone never changes a stored chat state: USER_STATE
is mutated only inside handle_message (lines 876, 897) and handle_photo
(line 489); the program arms no timer, stores no timestamp and runs no
background task that touches USER_STATE, so after any delay with no incoming
message the state is unchanged. -/
def elapse (st : Option ChatState) (_elapsed : ℕ) : Option ChatState := st

/-! ### Specification-side predicates (section 4.1 plausibility ranges and
the wording of claim C4) -/

/-- Every element of the list lies in the inclusive range. -/
def allWithin (lo hi : ℚ) (l : List ℚ) : Prop := ∀ q ∈ l, lo ≤ q ∧ q ≤ hi

instance (lo hi : ℚ) (l : List ℚ) : Decidable (allWithin lo hi l) := by
  unfold allWithin; infer_instance

/-- Modelled from the words of claim C4 for comparison with the code
scorer: +20 per populated field among wave, period, wind that is valid for
the section 4.1 range; +20 if the tide extremes contain at least one high
and one low; +10 if the populated wave maximum is at most 5.0; +10 if the
populated period maximum is at most 20.0. -/
def claim_quality_score (d : SurfData) : ℕ :=
  (if d.wave_data ≠ [] ∧ allWithin (mkRat 1 10) 6 d.wave_data then 20 else 0) +
  (if d.period_data ≠ [] ∧ allWithin 3 22 d.period_data then 20 else 0) +
  (if d.wind_data ≠ [] ∧ allWithin 0 15 d.wind_data then 20 else 0) +
  (if d.tides.high_times ≠ [] ∧ d.tides.low_times ≠ [] then 20 else 0) +
  (if d.wave_data ≠ [] ∧ listMax d.wave_data ≤ 5 then 10 else 0) +
  (if d.period_data ≠ [] ∧ listMax d.period_data ≤ 20 then 10 else 0)

/-- The amended scoring formula of claim C4, written from the corrected
wording: 20 points per sequence among wave, period, wind holding at least 6
entries with no range validation, 20 for tides listing at least one high
and one low time, 10 when the wave maximum lies in [0.5, 5.0] and 10 when
the period maximum lies in [5.0, 20.0]. -/
def amended_quality_score (d : SurfData) : ℕ :=
  20 * (List.countP (fun l => decide (6 ≤ l.length)) [d.wave_data, d.period_data, d.wind_data]) +
  (if d.tides.high_times ≠ [] ∧ d.tides.low_times ≠ [] then 20 else 0) +
  (if d.wave_data ≠ [] ∧ mkRat 1 2 ≤ listMax d.wave_data ∧ listMax d.wave_data ≤ 5 then 10 else 0) +
  (if d.period_data ≠ [] ∧ (5 : ℚ) ≤ listMax d.period_data ∧ listMax d.period_data ≤ 20 then 10 else 0)

/-! ### Helper lemmas about the gap-filling fold -/

theorem fillFrom_source (bn : String) (m : SurfData) (x : SurfData × String × ℕ) :
    (fillFrom bn m x).source = m.source := by
  unfold fillFrom; split <;> rfl

theorem fillFrom_success (bn : String) (m : SurfData) (x : SurfData × String × ℕ) :
    (fillFrom bn m x).success = m.success := by
  unfold fillFrom; split <;> rfl

theorem fillFrom_tides (bn : String) (m : SurfData) (x : SurfData × String × ℕ) :
    (fillFrom bn m x).tides = m.tides := by
  unfold fillFrom; split <;> rfl

theorem fillFrom_wave (bn : String) (m : SurfData) (x : SurfData × String × ℕ) :
    (fillFrom bn m x).wave_data =
      if x.2.1 ≠ bn ∧ m.wave_data = [] ∧ x.1.wave_data ≠ [] then x.1.wave_data
      else m.wave_data := by
  by_cases h1 : x.2.1 ≠ bn <;> by_cases h2 : m.wave_data = [] ∧ x.1.wave_data ≠ [] <;>
    simp [fillFrom, h1, h2, and_assoc]

theorem fillFrom_period (bn : String) (m : SurfData) (x : SurfData × String × ℕ) :
    (fillFrom bn m x).period_data =
      if x.2.1 ≠ bn ∧ m.period_data = [] ∧ x.1.period_data ≠ [] then x.1.period_data
      else m.period_data := by
  by_cases h1 : x.2.1 ≠ bn <;> by_cases h2 : m.period_data = [] ∧ x.1.period_data ≠ [] <;>
    simp [fillFrom, h1, h2, and_assoc]

theorem fillFrom_power (bn : String) (m : SurfData) (x : SurfData × String × ℕ) :
    (fillFrom bn m x).power_data =
      if x.2.1 ≠ bn ∧ m.power_data = [] ∧ x.1.power_data ≠ [] then x.1.power_data
      else m.power_data := by
  by_cases h1 : x.2.1 ≠ bn <;> by_cases h2 : m.power_data = [] ∧ x.1.power_data ≠ [] <;>
    simp [fillFrom, h1, h2, and_assoc]

theorem fillFrom_wind (bn : String) (m : SurfData) (x : SurfData × String × ℕ) :
    (fillFrom bn m x).wind_data =
      if x.2.1 ≠ bn ∧ m.wind_data = [] ∧ x.1.wind_data ≠ [] then x.1.wind_data
      else m.wind_data := by
  by_cases h1 : x.2.1 ≠ bn <;> by_cases h2 : m.wind_data = [] ∧ x.1.wind_data ≠ [] <;>
    simp [fillFrom, h1, h2, and_assoc]

theorem foldl_fill_source (bn : String) :
    ∀ (l : List (SurfData × String × ℕ)) (m : SurfData),
      (l.foldl (fillFrom bn) m).source = m.source
  | [], _ => rfl
  | x :: xs, m => by
    rw [List.foldl_cons, foldl_fill_source bn xs, fillFrom_source]

theorem foldl_fill_success (bn : String) :
    ∀ (l : List (SurfData × String × ℕ)) (m : SurfData),
      (l.foldl (fillFrom bn) m).success = m.success
  | [], _ => rfl
  | x :: xs, m => by
    rw [List.foldl_cons, foldl_fill_success bn xs, fillFrom_success]

theorem foldl_fill_tides (bn : String) :
    ∀ (l : List (SurfData × String × ℕ)) (m : SurfData),
      (l.foldl (fillFrom bn) m).tides = m.tides
  | [], _ => rfl
  | x :: xs, m => by
    rw [List.foldl_cons, foldl_fill_tides bn xs, fillFrom_tides]

/-- Behaviour of the gap-filling fold on one sequence field, given how
fillFrom acts on that field: the result is the seed value or comes verbatim
from one list element; a nonempty seed is never replaced; an empty result
means the seed was empty and every donating candidate was empty. -/
theorem foldl_fill_field (bn : String) (f : SurfData → List ℚ)
    (hf : ∀ m x, f (fillFrom bn m x) =
      if x.2.1 ≠ bn ∧ f m = [] ∧ f x.1 ≠ [] then f x.1 else f m) :
    ∀ (l : List (SurfData × String × ℕ)) (m : SurfData),
      (f (l.foldl (fillFrom bn) m) = f m ∨ ∃ x ∈ l, f (l.foldl (fillFrom bn) m) = f x.1) ∧
      (f m ≠ [] → f (l.foldl (fillFrom bn) m) = f m) ∧
      (f (l.foldl (fillFrom bn) m) = [] → f m = [] ∧ ∀ x ∈ l, x.2.1 ≠ bn → f x.1 = [])
  | [], m => by simp
  | x :: xs, m => by
    obtain ⟨ih1, ih2, ih3⟩ := foldl_fill_field bn f hf xs (fillFrom bn m x)
    rw [List.foldl_cons]
    refine ⟨?_, ?_, ?_⟩
    · rcases ih1 with h | ⟨y, hy, h⟩
      · rw [h, hf]
        by_cases hc : x.2.1 ≠ bn ∧ f m = [] ∧ f x.1 ≠ []
        · rw [if_pos hc]; exact Or.inr ⟨x, List.mem_cons_self x xs, rfl⟩
        · rw [if_neg hc]; exact Or.inl rfl
      · exact Or.inr ⟨y, List.mem_cons_of_mem x hy, h⟩
    · intro hm
      have hfx : f (fillFrom bn m x) = f m := by
        rw [hf, if_neg]; intro hc; exact hm hc.2.1
      rw [ih2 (by rw [hfx]; exact hm), hfx]
    · intro hz
      obtain ⟨h1, h2⟩ := ih3 hz
      rw [hf] at h1
      by_cases hc : x.2.1 ≠ bn ∧ f m = [] ∧ f x.1 ≠ []
      · rw [if_pos hc] at h1; exact absurd h1 hc.2.2
      · rw [if_neg hc] at h1
        refine ⟨h1, ?_⟩
        intro y hy hyn
        rcases List.mem_cons.mp hy with rfl | hy2
        · by_contra hne; exact hc ⟨hyn, h1, hne⟩
        · exact h2 y hy2 hyn

/-- First donated value for one field: the field of the first listed source
whose name differs from the best name and whose field is nonempty, empty
when there is none.  This is the first-fit order of the code: fixed list
order, not score order. -/
def firstFill (bn : String) (f : SurfData → List ℚ) : List (SurfData × String × ℕ) → List ℚ
  | [] => []
  | x :: xs => if x.2.1 ≠ bn ∧ f x.1 ≠ [] then f x.1 else firstFill bn f xs

theorem foldl_fill_first (bn : String) (f : SurfData → List ℚ)
    (hf : ∀ m x, f (fillFrom bn m x) =
      if x.2.1 ≠ bn ∧ f m = [] ∧ f x.1 ≠ [] then f x.1 else f m) :
    ∀ (l : List (SurfData × String × ℕ)) (m : SurfData), f m = [] →
      f (l.foldl (fillFrom bn) m) = firstFill bn f l
  | [], m, hm => by simpa [firstFill] using hm
  | x :: xs, m, hm => by
    rw [List.foldl_cons]
    by_cases hc : x.2.1 ≠ bn ∧ f x.1 ≠ []
    · have hfx : f (fillFrom bn m x) = f x.1 := by rw [hf, if_pos ⟨hc.1, hm, hc.2⟩]
      have hkeep := (foldl_fill_field bn f hf xs (fillFrom bn m x)).2.1 (by rw [hfx]; exact hc.2)
      rw [hkeep, hfx]
      simp [firstFill, hc]
    · have hfx : f (fillFrom bn m x) = f m := by
        rw [hf, if_neg]; intro h; exact hc ⟨h.1, h.2.2⟩
      rw [foldl_fill_first bn f hf xs (fillFrom bn m x) (by rw [hfx]; exact hm)]
      simp [firstFill, hc]

/-! ### Helper lemmas about best-source selection -/

theorem pyMaxByScore_mem :
    ∀ (xs : List (SurfData × String × ℕ)) (acc : SurfData × String × ℕ),
      pyMaxByScore acc xs = acc ∨ pyMaxByScore acc xs ∈ xs
  | [], _ => Or.inl rfl
  | x :: xs, acc => by
    simp only [pyMaxByScore]
    rcases pyMaxByScore_mem xs (if acc.2.2 < x.2.2 then x else acc) with h | h
    · rw [h]
      split_ifs
      · exact Or.inr (List.mem_cons_self x xs)
      · exact Or.inl rfl
    · exact Or.inr (List.mem_cons_of_mem x h)

theorem pyMaxByScore_of_le :
    ∀ (xs : List (SurfData × String × ℕ)) (acc : SurfData × String × ℕ),
      (∀ x ∈ xs, x.2.2 ≤ acc.2.2) → pyMaxByScore acc xs = acc
  | [], _, _ => rfl
  | x :: xs, acc, h => by
    simp only [pyMaxByScore]
    rw [if_neg (by have := h x (List.mem_cons_self x xs); omega)]
    exact pyMaxByScore_of_le xs acc (fun y hy => h y (List.mem_cons_of_mem x hy))

theorem pyMaxByScore_pair_last (a b c : SurfData × String × ℕ)
    (h1 : a.2.2 < c.2.2) (h2 : b.2.2 < c.2.2) : pyMaxByScore a [b, c] = c := by
  simp only [pyMaxByScore]
  split_ifs <;> first | rfl | (exfalso; omega)

theorem merge_eq_of_best (od dd wd : Option SurfData) (rnd : Bool)
    (b : SurfData × String × ℕ) (hb : best_of od dd wd = some b) :
    merge_triple_ai_data od dd wd rnd = mergeFromBest (scored_sources od dd wd) b := by
  unfold merge_triple_ai_data
  rw [hb]

theorem merge_eq_fallback (od dd wd : Option SurfData) (rnd : Bool)
    (hb : best_of od dd wd = none) :
    merge_triple_ai_data od dd wd rnd = generate_dynamic_fallback_data rnd := by
  unfold merge_triple_ai_data
  rw [hb]

theorem mergeFromBest_source (l : List (SurfData × String × ℕ)) (b : SurfData × String × ℕ) :
    (mergeFromBest l b).source = "triple_merge_" ++ b.2.1 := by
  unfold mergeFromBest
  rw [foldl_fill_source]
  rfl

theorem mergeFromBest_success (l : List (SurfData × String × ℕ)) (b : SurfData × String × ℕ) :
    (mergeFromBest l b).success = true := by
  unfold mergeFromBest
  rw [foldl_fill_success]
  rfl

theorem mergeFromBest_tides (l : List (SurfData × String × ℕ)) (b : SurfData × String × ℕ) :
    (mergeFromBest l b).tides = b.1.tides := by
  unfold mergeFromBest
  rw [foldl_fill_tides]
  rfl

theorem best_of_mem (od dd wd : Option SurfData) (b : SurfData × String × ℕ)
    (hb : best_of od dd wd = some b) : b ∈ scored_sources od dd wd := by
  unfold best_of at hb
  rcases hs : scored_sources od dd wd with _ | ⟨x, xs⟩ <;> rw [hs] at hb
  · cases hb
  · injection hb with hb
    rcases hb ▸ pyMaxByScore_mem xs x with h | h
    · rw [h]; exact List.mem_cons_self x xs
    · exact List.mem_cons_of_mem x h

/-- The names OpenAI, DeepSeek, Windy API occur at most once each in the
scored list, so two scored entries with equal names are equal. -/
theorem scored_sources_name_inj (od dd wd : Option SurfData) :
    ∀ x ∈ scored_sources od dd wd, ∀ y ∈ scored_sources od dd wd, x.2.1 = y.2.1 → x = y := by
  rcases od with _ | o <;> rcases dd with _ | p <;> rcases wd with _ | w <;>
    simp only [scored_sources, maybeScore, List.append_nil, List.nil_append,
      List.cons_append, List.mem_cons, List.mem_singleton, List.not_mem_nil] <;>
    intro x hx y hy hxy <;>
    rcases hx with rfl | hx <;> try rcases hx with rfl | hx <;> try rcases hx with rfl | hx
  all_goals
    first
    | rfl
    | (rcases hy with rfl | hy <;> try rcases hy with rfl | hy <;> try rcases hy with rfl | hy) <;>
      simp_all

/-! ### Claim C1 -/

/-- Claim C1: merge_triple_ai_data is total and, when all three sources are
None (every backend returned None or raised, exceptions having been turned
into None at lines 441-450), it returns the synthetic fallback dataset: for
either random choice, the result is exactly generate_dynamic_fallback_data,
every one of the four sequence fields is nonempty with every element inside
the section 4.1 plausibility ranges (wave 0.1 to 6.0, period 3.0 to 22.0,
power 30 to 1600, wind 0.0 to 15.0), the tide extremes are populated, and
the provenance source is dynamic_fallback, the synthetic marker. -/
theorem c1_reconcile_never_fails :
    (∀ (od dd wd : Option SurfData) (rnd : Bool),
      (merge_triple_ai_data od dd wd rnd).success = true) ∧
    (∀ rnd : Bool,
      merge_triple_ai_data none none none rnd = generate_dynamic_fallback_data rnd ∧
      (generate_dynamic_fallback_data rnd).source = "dynamic_fallback" ∧
      (generate_dynamic_fallback_data rnd).wave_data ≠ [] ∧
      (generate_dynamic_fallback_data rnd).period_data ≠ [] ∧
      (generate_dynamic_fallback_data rnd).power_data ≠ [] ∧
      (generate_dynamic_fallback_data rnd).wind_data ≠ [] ∧
      allWithin (mkRat 1 10) 6 (generate_dynamic_fallback_data rnd).wave_data ∧
      allWithin 3 22 (generate_dynamic_fallback_data rnd).period_data ∧
      allWithin 30 1600 (generate_dynamic_fallback_data rnd).power_data ∧
      allWithin 0 15 (generate_dynamic_fallback_data rnd).wind_data ∧
      (generate_dynamic_fallback_data rnd).tides.high_times ≠ [] ∧
      (generate_dynamic_fallback_data rnd).tides.low_times ≠ []) := by
  constructor
  · intro od dd wd rnd
    rcases hb : best_of od dd wd with _ | b
    · rw [merge_eq_fallback od dd wd rnd hb]; rfl
    · rw [merge_eq_of_best od dd wd rnd b hb, mergeFromBest_success]
  · intro rnd
    cases rnd <;> decide

/-! ### Claim C2 -/

/-- A candidate whose wave field is grossly out of range: six readings of
50 meters, far above the 6.0 meter bound of section 4.1. -/
def hugeWaveCand : SurfData :=
  { source := "openai_vision", success := true,
    wave_data := [50, 50, 50, 50, 50, 50],
    period_data := [], power_data := [], wind_data := [], tides := emptyTides }

/-- Claim C2 counterexample: merging a surviving candidate whose wave field
contains only out-of-range values yields a merged output that still carries
those values verbatim - the field is not cleared and the merged output does
contain values outside the section 4.1 range. -/
theorem c2_counterexample :
    (merge_triple_ai_data (some hugeWaveCand) none none true).wave_data =
      [50, 50, 50, 50, 50, 50] ∧
    ¬ allWithin (mkRat 1 10) 6
      (merge_triple_ai_data (some hugeWaveCand) none none true).wave_data := by
  decide

/-- Claim C2 amended: no range validation happens anywhere on the merge
path.  Every field of a single surviving candidate passes into the merged
output verbatim, out-of-range elements included; and validate_surf_data,
which the merge never invokes anyway, returns true for any dataset whose
success flag is set and whose wave array has at least 6 entries, no matter
how far out of range its values are - its internally computed range checks
are used only for logging. -/
theorem c2_no_range_enforcement (o : SurfData) (rnd : Bool) :
    (merge_triple_ai_data (some o) none none rnd).wave_data = o.wave_data ∧
    (merge_triple_ai_data (some o) none none rnd).period_data = o.period_data ∧
    (merge_triple_ai_data (some o) none none rnd).power_data = o.power_data ∧
    (merge_triple_ai_data (some o) none none rnd).wind_data = o.wind_data ∧
    (merge_triple_ai_data (some o) none none rnd).tides = o.tides ∧
    (o.success = true → 6 ≤ o.wave_data.length → validate_surf_data o = true) := by
  have hb : best_of (some o) none none = some (o, "OpenAI", calculate_data_quality_score o) := by
    simp [best_of, scored_sources, maybeScore, pyMaxByScore]
  have hm := merge_eq_of_best (some o) none none rnd _ hb
  have hsc : scored_sources (some o) none none =
      [(o, "OpenAI", calculate_data_quality_score o)] := by
    simp [scored_sources, maybeScore]
  rw [hm, hsc]
  refine ⟨?_, ?_, ?_, ?_, ?_, ?_⟩
  · simp [mergeFromBest, mergedBase, fillFrom]
  · simp [mergeFromBest, mergedBase, fillFrom]
  · simp [mergeFromBest, mergedBase, fillFrom]
  · simp [mergeFromBest, mergedBase, fillFrom]
  · simp [mergeFromBest, mergedBase, fillFrom]
  · intro hs hl
    have hne : o.wave_data ≠ [] := by
      intro h
      rw [h] at hl
      simp at hl
    simp [validate_surf_data, hs, hne, hl]

/-- Witness for claim C2: the amended theorem applied to the concrete
out-of-range candidate, the inner hypotheses discharged by evaluation. -/
theorem c2_no_range_enforcement_witness :
    (merge_triple_ai_data (some hugeWaveCand) none none false).wave_data = hugeWaveCand.wave_data ∧
    (merge_triple_ai_data (some hugeWaveCand) none none false).period_data = hugeWaveCand.period_data ∧
    (merge_triple_ai_data (some hugeWaveCand) none none false).power_data = hugeWaveCand.power_data ∧
    (merge_triple_ai_data (some hugeWaveCand) none none false).wind_data = hugeWaveCand.wind_data ∧
    (merge_triple_ai_data (some hugeWaveCand) none none false).tides = hugeWaveCand.tides ∧
    validate_surf_data hugeWaveCand = true := by
  obtain ⟨h1, h2, h3, h4, h5, h6⟩ := c2_no_range_enforcement hugeWaveCand false
  exact ⟨h1, h2, h3, h4, h5, h6 (by decide) (by decide)⟩

/-! ### Claim C7 -/

/-- A single candidate with some wave data and nothing else to merge. -/
def soloCand : SurfData :=
  { source := "openai_vision", success := true,
    wave_data := [mkRat 12 10, mkRat 13 10],
    period_data := [], power_data := [], wind_data := [], tides := emptyTides }

/-- Claim C7 counterexample: with a single surviving candidate no field can
be filled from a non-base candidate, yet the merged provenance is
triple_merge_OpenAI and not the base candidate provenance openai_vision -
the result does not keep the base candidate source tag. -/
theorem c7_counterexample :
    (merge_triple_ai_data (some soloCand) none none true).wave_data = soloCand.wave_data ∧
    (merge_triple_ai_data (some soloCand) none none true).period_data = soloCand.period_data ∧
    (merge_triple_ai_data (some soloCand) none none true).power_data = soloCand.power_data ∧
    (merge_triple_ai_data (some soloCand) none none true).wind_data = soloCand.wind_data ∧
    (merge_triple_ai_data (some soloCand) none none true).source = "triple_merge_OpenAI" ∧
    (merge_triple_ai_data (some soloCand) none none true).source ≠ soloCand.source := by
  decide

/-- Claim C7 amended: whenever at least one candidate survives, the merged
provenance is always the string triple_merge_ followed by the best-scoring
source name, regardless of whether any field was gap-filled from a non-base
candidate; the base candidate's own provenance tag is never kept. -/
theorem c7_provenance_always_merge_tag (od dd wd : Option SurfData) (rnd : Bool)
    (b : SurfData × String × ℕ) (hb : best_of od dd wd = some b) :
    (merge_triple_ai_data od dd wd rnd).source = "triple_merge_" ++ b.2.1 := by
  rw [merge_eq_of_best od dd wd rnd b hb, mergeFromBest_source]

/-- Witness for claim C7: the amended theorem applied to the single
concrete candidate. -/
theorem c7_provenance_always_merge_tag_witness :
    (merge_triple_ai_data (some soloCand) none none false).source = "triple_merge_" ++ "OpenAI" :=
  c7_provenance_always_merge_tag (some soloCand) none none false
    (soloCand, "OpenAI", 10) (by decide)

/-! ### Claim C10 -/

/-- For one sequence field, the merged value is verbatim the field of one
listed source, or it is empty and so is that field of every listed source. -/
theorem mergeFromBest_field_cases (l : List (SurfData × String × ℕ))
    (b : SurfData × String × ℕ) (f : SurfData → List ℚ)
    (hf : ∀ m x, f (fillFrom b.2.1 m x) =
      if x.2.1 ≠ b.2.1 ∧ f m = [] ∧ f x.1 ≠ [] then f x.1 else f m)
    (hbase : f (mergedBase b) = f b.1)
    (hbm : b ∈ l)
    (hinj : ∀ x ∈ l, ∀ y ∈ l, x.2.1 = y.2.1 → x = y) :
    (∃ x ∈ l, f (mergeFromBest l b) = f x.1) ∨
    (f (mergeFromBest l b) = [] ∧ ∀ x ∈ l, f x.1 = []) := by
  obtain ⟨h1, _h2, h3⟩ := foldl_fill_field b.2.1 f hf l (mergedBase b)
  by_cases hz : f (mergeFromBest l b) = []
  · right
    refine ⟨hz, ?_⟩
    obtain ⟨hm0, hall⟩ := h3 hz
    intro x hx
    by_cases hn : x.2.1 = b.2.1
    · rw [hinj x hx b hbm hn, ← hbase]
      exact hm0
    · exact hall x hx hn
  · left
    rcases h1 with h | ⟨x, hx, h⟩
    · exact ⟨b, hbm, by rw [mergeFromBest] at *; rw [h, hbase]⟩
    · exact ⟨x, hx, h⟩

/-- Claim C10: the merge never fabricates data.  When at least one source
produced a candidate, the tide extremes of the merged output are exactly the
best-scoring candidate's tides, and each of the four sequence fields is,
verbatim, the whole corresponding list of one of the scored candidates, or
empty when no candidate populated it - no mixing of elements from different
sources inside one field and no invented values outside the all-failure
fallback path. -/
theorem c10_merge_never_fabricates (od dd wd : Option SurfData) (rnd : Bool)
    (b : SurfData × String × ℕ) (hb : best_of od dd wd = some b) :
    (merge_triple_ai_data od dd wd rnd).tides = b.1.tides ∧
    ((∃ x ∈ scored_sources od dd wd,
        (merge_triple_ai_data od dd wd rnd).wave_data = x.1.wave_data) ∨
     ((merge_triple_ai_data od dd wd rnd).wave_data = [] ∧
      ∀ x ∈ scored_sources od dd wd, x.1.wave_data = [])) ∧
    ((∃ x ∈ scored_sources od dd wd,
        (merge_triple_ai_data od dd wd rnd).period_data = x.1.period_data) ∨
     ((merge_triple_ai_data od dd wd rnd).period_data = [] ∧
      ∀ x ∈ scored_sources od dd wd, x.1.period_data = [])) ∧
    ((∃ x ∈ scored_sources od dd wd,
        (merge_triple_ai_data od dd wd rnd).power_data = x.1.power_data) ∨
     ((merge_triple_ai_data od dd wd rnd).power_data = [] ∧
      ∀ x ∈ scored_sources od dd wd, x.1.power_data = [])) ∧
    ((∃ x ∈ scored_sources od dd wd,
        (merge_triple_ai_data od dd wd rnd).wind_data = x.1.wind_data) ∨
     ((merge_triple_ai_data od dd wd rnd).wind_data = [] ∧
      ∀ x ∈ scored_sources od dd wd, x.1.wind_data = [])) := by
  have hbm := best_of_mem od dd wd b hb
  have hinj := scored_sources_name_inj od dd wd
  rw [merge_eq_of_best od dd wd rnd b hb]
  refine ⟨mergeFromBest_tides _ _, ?_, ?_, ?_, ?_⟩
  · exact mergeFromBest_field_cases _ b (fun s => s.wave_data)
      (fun m x => fillFrom_wave b.2.1 m x) rfl hbm hinj
  · exact mergeFromBest_field_cases _ b (fun s => s.period_data)
      (fun m x => fillFrom_period b.2.1 m x) rfl hbm hinj
  · exact mergeFromBest_field_cases _ b (fun s => s.power_data)
      (fun m x => fillFrom_power b.2.1 m x) rfl hbm hinj
  · exact mergeFromBest_field_cases _ b (fun s => s.wind_data)
      (fun m x => fillFrom_wind b.2.1 m x) rfl hbm hinj

/-- Witness for claim C10: the theorem applied at a concrete single
candidate, hypothesis discharged by evaluation. -/
theorem c10_merge_never_fabricates_witness :
    (merge_triple_ai_data (some soloCand) none none true).tides = soloCand.tides ∧
    ((∃ x ∈ scored_sources (some soloCand) none none,
        (merge_triple_ai_data (some soloCand) none none true).wave_data = x.1.wave_data) ∨
     ((merge_triple_ai_data (some soloCand) none none true).wave_data = [] ∧
      ∀ x ∈ scored_sources (some soloCand) none none, x.1.wave_data = [])) ∧
    ((∃ x ∈ scored_sources (some soloCand) none none,
        (merge_triple_ai_data (some soloCand) none none true).period_data = x.1.period_data) ∨
     ((merge_triple_ai_data (some soloCand) none none true).period_data = [] ∧
      ∀ x ∈ scored_sources (some soloCand) none none, x.1.period_data = [])) ∧
    ((∃ x ∈ scored_sources (some soloCand) none none,
        (merge_triple_ai_data (some soloCand) none none true).power_data = x.1.power_data) ∨
     ((merge_triple_ai_data (some soloCand) none none true).power_data = [] ∧
      ∀ x ∈ scored_sources (some soloCand) none none, x.1.power_data = [])) ∧
    ((∃ x ∈ scored_sources (some soloCand) none none,
        (merge_triple_ai_data (some soloCand) none none true).wind_data = x.1.wind_data) ∨
     ((merge_triple_ai_data (some soloCand) none none true).wind_data = [] ∧
      ∀ x ∈ scored_sources (some soloCand) none none, x.1.wind_data = [])) :=
  c10_merge_never_fabricates (some soloCand) none none true
    (soloCand, "OpenAI", 10) (by decide)

/-! ### Concrete session states and texts used by the session claims -/

/-- A chat right after a delivered report: active, awaiting feedback. -/
def ackState : Option ChatState := some { active := true, awaiting_feedback := true }

/-- An activated chat not awaiting feedback. -/
def activeState : Option ChatState := some { active := true, awaiting_feedback := false }

/-- A stored but inactive chat. -/
def idleState : Option ChatState := some { active := false, awaiting_feedback := false }

/-- An arbitrary acknowledgement text containing neither the trigger phrase
nor a feedback keyword. -/
def thanksText : String := "спасибо"

/-- A concrete date string. -/
def dateX : String := "2024-11-06"

/-- A concrete current date for the parse default. -/
def todayX : String := "2024-10-12"

/-! ### Claim C3 -/

/-- Claim C3 counterexample: in the awaiting-acknowledgement phase an
arbitrary text stores active True with awaiting_feedback False, so the
session is Active and not Idle, and a subsequent image is processed rather
than refused - the trigger phrase is not needed again. -/
theorem c3_counterexample :
    (handle_message ackState thanksText).1 = some { active := true, awaiting_feedback := false } ∧
    sessionPhase (handle_message ackState thanksText).1 = Phase.Active ∧
    sessionPhase (handle_message ackState thanksText).1 ≠ Phase.Idle ∧
    (handle_photo (handle_message ackState thanksText).1 none dateX).2 =
      PhotoOutcome.processed defaultSpot dateX := by
  decide

/-- Claim C3 amended: for every session in the awaiting-acknowledgement
state, receiving any text message stores active True and awaiting_feedback
False - the session transitions to Active, not Idle - and a subsequent
image is accepted for processing, not refused. -/
theorem c3_ack_transitions_to_active (st : Option ChatState) (text : String)
    (caption : Option String) (today : String)
    (h : (stateOf st).awaiting_feedback = true) :
    (handle_message st text).1 = some { active := true, awaiting_feedback := false } ∧
    sessionPhase (handle_message st text).1 = Phase.Active ∧
    (handle_photo (handle_message st text).1 caption today).2 ≠ PhotoOutcome.refused := by
  have hst : (handle_message st text).1 = some { active := true, awaiting_feedback := false } := by
    by_cases ht : containsSubstr (pyLower (pyStrip (pyLower text))) triggerPhrase <;>
      simp [handle_message, ht, h]
  refine ⟨hst, ?_, ?_⟩
  · rw [hst]; rfl
  · rw [hst]
    simp [handle_photo, stateOf]

/-- Witness for claim C3: the amended theorem at the concrete awaiting
state and acknowledgement text. -/
theorem c3_ack_transitions_to_active_witness :
    (handle_message ackState thanksText).1 = some { active := true, awaiting_feedback := false } ∧
    sessionPhase (handle_message ackState thanksText).1 = Phase.Active ∧
    (handle_photo (handle_message ackState thanksText).1 none todayX).2 ≠ PhotoOutcome.refused :=
  c3_ack_transitions_to_active ackState thanksText none todayX (by decide)

/-! ### Claim C6 -/

/-- Claim C6 counterexample: after an arbitrarily long delay with no
incoming message, an awaiting-acknowledgement session is completely
unchanged - still AwaitingAcknowledgement, never Idle - and a subsequent
image is processed, not refused: no expiry timer exists in the program. -/
theorem c6_counterexample :
    elapse ackState 1000000000 = ackState ∧
    sessionPhase (elapse ackState 1000000000) = Phase.AwaitingAck ∧
    sessionPhase (elapse ackState 1000000000) ≠ Phase.Idle ∧
    (handle_photo (elapse ackState 1000000000) none dateX).2 =
      PhotoOutcome.processed defaultSpot dateX := by
  decide

/-- Claim C6 amended: there is no expiry mechanism.  A session in the
awaiting-acknowledgement phase is unchanged by any passage of time (the
program stores no timestamp and arms no timer), remains in
AwaitingAcknowledgement, and a subsequent image is accepted for processing,
never refused as session-not-active. -/
theorem c6_no_expiry (st : Option ChatState) (t : ℕ)
    (caption : Option String) (today : String)
    (h : sessionPhase st = Phase.AwaitingAck) :
    elapse st t = st ∧
    sessionPhase (elapse st t) = Phase.AwaitingAck ∧
    (handle_photo (elapse st t) caption today).2 ≠ PhotoOutcome.refused := by
  have hact : (stateOf st).active = true := by
    rcases st with _ | s
    · simp [sessionPhase] at h
    · by_cases ha : s.active
      · simpa [stateOf] using ha
      · simp [sessionPhase, ha] at h
  refine ⟨rfl, h, ?_⟩
  simp [handle_photo, hact, elapse]

/-- Witness for claim C6: the amended theorem at the concrete awaiting
state and a concrete delay. -/
theorem c6_no_expiry_witness :
    elapse ackState 12345 = ackState ∧
    sessionPhase (elapse ackState 12345) = Phase.AwaitingAck ∧
    (handle_photo (elapse ackState 12345) none todayX).2 ≠ PhotoOutcome.refused :=
  c6_no_expiry ackState 12345 none todayX (by decide)

/-! ### Claim C8 -/

/-- A caption naming a spot that is not in the table. -/
def unknownCaption : String := "atlantis 2024-11-06"

/-- The parsed location is always a key of the spot table and never the
empty string: unknown first tokens are replaced by the default spot. -/
theorem parse_loc_valid (caption : Option String) (today : String) :
    (parse_caption_for_location_date caption today).1 ∈ spotKeys ∧
    (parse_caption_for_location_date caption today).1 ≠ "" := by
  have hdef : defaultSpot ∈ spotKeys ∧ (defaultSpot : String) ≠ "" := by decide
  have hkeys : ∀ s ∈ spotKeys, s ≠ "" := by decide
  rcases caption with _ | c
  · exact hdef
  · simp only [parse_caption_for_location_date]
    by_cases hc : c = ""
    · rw [if_pos hc]; exact hdef
    · rw [if_neg hc]
      rcases hs : pySplit c with _ | ⟨p0, rest⟩
      · exact hdef
      · show (if pyLower p0 ∈ spotKeys then pyLower p0 else defaultSpot) ∈ spotKeys ∧
            (if pyLower p0 ∈ spotKeys then pyLower p0 else defaultSpot) ≠ ""
        by_cases hmem : pyLower p0 ∈ spotKeys
        · rw [if_pos hmem]
          exact ⟨hmem, hkeys _ hmem⟩
        · rw [if_neg hmem]
          exact hdef

/-- Claim C8 counterexample: with the session active, an image whose
caption names the unknown spot atlantis is not refused and no fixed
spot-not-recognized reply exists - instead the parse silently falls back to
the default spot uluwatu and the triple reconciliation is started with it. -/
theorem c8_counterexample :
    parse_caption_for_location_date (some unknownCaption) todayX = (defaultSpot, dateX) ∧
    (handle_photo activeState (some unknownCaption) todayX).2 =
      PhotoOutcome.processed defaultSpot dateX ∧
    (handle_photo activeState (some unknownCaption) todayX).2 ≠ PhotoOutcome.refused := by
  decide

/-- Claim C8 amended: for every caption the parsed location is a key of the
static spot table - an unknown spot name is silently replaced by the
default uluwatu - and an active session always processes the image,
invoking reconciliation with that parsed location and date; no
spot-not-recognized message is ever produced and reconciliation is never
skipped for an unknown spot. -/
theorem c8_unknown_spot_defaults (caption : Option String) (today : String)
    (st : Option ChatState) (hact : (stateOf st).active = true) :
    (parse_caption_for_location_date caption today).1 ∈ spotKeys ∧
    (handle_photo st caption today).2 ≠ PhotoOutcome.refused ∧
    (handle_photo st caption today).2 =
      PhotoOutcome.processed
        (parse_caption_for_location_date (some (caption.getD "")) today).1
        (parse_caption_for_location_date (some (caption.getD "")) today).2 := by
  have hp := parse_loc_valid (some (caption.getD "")) today
  have hne : ¬ ¬ (stateOf st).active := by simp [hact]
  refine ⟨(parse_loc_valid caption today).1, ?_, ?_⟩
  · unfold handle_photo
    rw [if_neg hne]
    simp
  · unfold handle_photo
    rw [if_neg hne]
    simp only [if_neg hp.2]

/-- Witness for claim C8: the amended theorem at the concrete unknown
caption and active state. -/
theorem c8_unknown_spot_defaults_witness :
    (parse_caption_for_location_date (some unknownCaption) todayX).1 ∈ spotKeys ∧
    (handle_photo activeState (some unknownCaption) todayX).2 ≠ PhotoOutcome.refused ∧
    (handle_photo activeState (some unknownCaption) todayX).2 =
      PhotoOutcome.processed
        (parse_caption_for_location_date (some ((some unknownCaption).getD "")) todayX).1
        (parse_caption_for_location_date (some ((some unknownCaption).getD "")) todayX).2 :=
  c8_unknown_spot_defaults (some unknownCaption) todayX activeState (by decide)

/-! ### Claim C4 -/

/-- A populated, range-valid wave field whose maximum is below 0.5 m. -/
def lowWaveCand : SurfData :=
  { source := "openai_vision", success := true,
    wave_data := [mkRat 2 10, mkRat 2 10, mkRat 2 10, mkRat 2 10, mkRat 2 10, mkRat 2 10],
    period_data := [], power_data := [], wind_data := [], tides := emptyTides }

/-- A candidate with no data at all, quality score 0. -/
def emptyCand : SurfData :=
  { source := "deepseek_vision", success := true,
    wave_data := [], period_data := [], power_data := [], wind_data := [], tides := emptyTides }

/-- Claim C4 counterexample: a candidate whose wave field is populated and
valid (six readings of 0.2 m, all inside 0.1 to 6.0) with maximum at most
5.0 scores 30 under the formula of the claim, but the code scores it 20:
the 10-point wave bonus also requires the maximum to be at least 0.5 m
(and the 20-point field award requires at least 6 entries, not mere
validity). -/
theorem c4_counterexample :
    claim_quality_score lowWaveCand = 30 ∧
    calculate_data_quality_score lowWaveCand = 20 ∧
    lowWaveCand.wave_data ≠ [] ∧
    allWithin (mkRat 1 10) 6 lowWaveCand.wave_data ∧
    listMax lowWaveCand.wave_data ≤ 5 := by
  decide

/-- Claim C4 amended: the quality score is 20 points per sequence among
wave, period, wind holding at least 6 entries (range validity is not
checked), plus 20 when the tides list at least one high and one low time,
plus 10 when the wave maximum lies in [0.5, 5.0] and 10 when the period
maximum lies in [5.0, 20.0]; the total never exceeds 100; and ties (or any
non-strict ordering) are broken by the fixed source order OpenAI first,
then DeepSeek, then Windy API. -/
theorem c4_scoring_amended (d o p w : SurfData) (rnd : Bool)
    (h1 : calculate_data_quality_score p ≤ calculate_data_quality_score o)
    (h2 : calculate_data_quality_score w ≤ calculate_data_quality_score o) :
    calculate_data_quality_score d = amended_quality_score d ∧
    calculate_data_quality_score d ≤ 100 ∧
    (merge_triple_ai_data (some o) (some p) (some w) rnd).source = "triple_merge_OpenAI" := by
  have hne : ∀ (l : List ℚ), 6 ≤ l.length → l ≠ [] := by
    intro l hl h
    rw [h] at hl
    simp at hl
  refine ⟨?_, ?_, ?_⟩
  · have w1 : (d.wave_data ≠ [] ∧ 6 ≤ d.wave_data.length) ↔ 6 ≤ d.wave_data.length :=
      ⟨fun h => h.2, fun h => ⟨hne _ h, h⟩⟩
    have w2 : (d.period_data ≠ [] ∧ 6 ≤ d.period_data.length) ↔ 6 ≤ d.period_data.length :=
      ⟨fun h => h.2, fun h => ⟨hne _ h, h⟩⟩
    have w3 : (d.wind_data ≠ [] ∧ 6 ≤ d.wind_data.length) ↔ 6 ≤ d.wind_data.length :=
      ⟨fun h => h.2, fun h => ⟨hne _ h, h⟩⟩
    unfold calculate_data_quality_score amended_quality_score
    rw [List.countP_cons, List.countP_cons, List.countP_cons, List.countP_nil]
    simp only [w1, w2, w3, decide_eq_true_eq]
    by_cases h1 : 6 ≤ d.wave_data.length <;>
    by_cases h2 : 6 ≤ d.period_data.length <;>
    by_cases h3 : 6 ≤ d.wind_data.length <;>
      simp only [h1, h2, h3, if_true, if_false] <;> omega
  · unfold calculate_data_quality_score
    split_ifs <;> omega
  · have hsc : scored_sources (some o) (some p) (some w) =
        [(o, "OpenAI", calculate_data_quality_score o),
         (p, "DeepSeek", calculate_data_quality_score p),
         (w, "Windy API", calculate_data_quality_score w)] := by
      simp [scored_sources, maybeScore]
    have hpm : pyMaxByScore (o, "OpenAI", calculate_data_quality_score o)
        [(p, "DeepSeek", calculate_data_quality_score p),
         (w, "Windy API", calculate_data_quality_score w)] =
        (o, "OpenAI", calculate_data_quality_score o) := by
      apply pyMaxByScore_of_le
      intro x hx
      rcases List.mem_cons.mp hx with rfl | hx
      · exact h1
      · rw [List.mem_singleton] at hx
        subst hx
        exact h2
    have hbest : best_of (some o) (some p) (some w) =
        some (o, "OpenAI", calculate_data_quality_score o) := by
      simp only [best_of, hsc, hpm]
    rw [merge_eq_of_best _ _ _ rnd _ hbest, mergeFromBest_source]
    rfl

/-- Witness for claim C4: the amended theorem at concrete candidates, with
OpenAI (score 20) dominating DeepSeek (score 0) and Windy API (score 10). -/
theorem c4_scoring_amended_witness :
    calculate_data_quality_score lowWaveCand = amended_quality_score lowWaveCand ∧
    calculate_data_quality_score lowWaveCand ≤ 100 ∧
    (merge_triple_ai_data (some hugeWaveCand) (some emptyCand) (some soloCand) true).source =
      "triple_merge_OpenAI" :=
  c4_scoring_amended lowWaveCand hugeWaveCand emptyCand soloCand true (by decide) (by decide)

/-! ### Claim C5 -/

/-- OpenAI candidate of the gap-fill order scenario: wave only, score 20
(six entries, maximum 0.2 below the 0.5 bonus threshold). -/
def oC5 : SurfData :=
  { source := "openai_vision", success := true,
    wave_data := [mkRat 2 10, mkRat 2 10, mkRat 2 10, mkRat 2 10, mkRat 2 10, mkRat 2 10],
    period_data := [], power_data := [], wind_data := [], tides := emptyTides }

/-- DeepSeek candidate: wave only, score 30 (six entries plus the bonus). -/
def dC5 : SurfData :=
  { source := "deepseek_vision", success := true,
    wave_data := [1, 1, 1, 1, 1, 1],
    period_data := [], power_data := [], wind_data := [], tides := emptyTides }

/-- Windy candidate: no wave data, but period, wind and tides, score 70. -/
def wC5 : SurfData :=
  { source := "windy_api", success := true,
    wave_data := [],
    period_data := [10, 10, 10, 10, 10, 10],
    power_data := [],
    wind_data := [1, 1, 1, 1, 1, 1],
    tides := { high_times := ["10:00"], high_heights := [2],
               low_times := ["16:00"], low_heights := [mkRat 1 2] } }

/-- Claim C5 counterexample: the base candidate (Windy, score 70) lacks
wave data; the next-highest-scoring candidate holding populated, valid wave
data is DeepSeek (score 30, beating OpenAI at 20); yet the merge copies the
wave field from OpenAI - the gap-filling pass walks the fixed source list
order, not descending score order. -/
theorem c5_counterexample :
    calculate_data_quality_score oC5 < calculate_data_quality_score dC5 ∧
    calculate_data_quality_score dC5 < calculate_data_quality_score wC5 ∧
    wC5.wave_data = [] ∧
    dC5.wave_data ≠ [] ∧
    allWithin (mkRat 1 10) 6 dC5.wave_data ∧
    (merge_triple_ai_data (some oC5) (some dC5) (some wC5) true).wave_data = oC5.wave_data ∧
    (merge_triple_ai_data (some oC5) (some dC5) (some wC5) true).wave_data ≠ dC5.wave_data := by
  decide

/-- For each sequence field, merging three sources whose best is Windy
yields: the Windy value when nonempty, else the OpenAI value when nonempty,
else the DeepSeek value - first fit in fixed list order. -/
theorem mergeFromBest_three_field (o p w : SurfData) (so sp sw : ℕ) (f : SurfData → List ℚ)
    (hf : ∀ m x, f (fillFrom "Windy API" m x) =
      if x.2.1 ≠ "Windy API" ∧ f m = [] ∧ f x.1 ≠ [] then f x.1 else f m)
    (hbase : f (mergedBase (w, "Windy API", sw)) = f w) :
    f (mergeFromBest [(o, "OpenAI", so), (p, "DeepSeek", sp), (w, "Windy API", sw)]
        (w, "Windy API", sw)) =
      if f w = [] then (if f o ≠ [] then f o else f p) else f w := by
  by_cases hw : f w = []
  · rw [if_pos hw]
    have hff := foldl_fill_first "Windy API" f hf
      [(o, "OpenAI", so), (p, "DeepSeek", sp), (w, "Windy API", sw)]
      (mergedBase (w, "Windy API", sw)) (by rw [hbase]; exact hw)
    rw [mergeFromBest, hff]
    have e1 : ("OpenAI" : String) ≠ "Windy API" := by decide
    have e2 : ("DeepSeek" : String) ≠ "Windy API" := by decide
    simp only [firstFill, e1, e2, ne_eq, not_true_eq_false, false_and, if_false, true_and,
      not_false_eq_true]
    split_ifs <;> simp_all
  · rw [if_neg hw]
    have hkeep := (foldl_fill_field "Windy API" f hf
      [(o, "OpenAI", so), (p, "DeepSeek", sp), (w, "Windy API", sw)]
      (mergedBase (w, "Windy API", sw))).2.1 (by rw [hbase]; exact hw)
    rw [mergeFromBest, hkeep, hbase]

/-- Claim C5 amended: when the Windy candidate strictly outscores the other
two, it is the base, and each field empty in the base is copied from the
first candidate in the fixed source order OpenAI, DeepSeek that has it
populated - regardless of their relative scores; no range validity is
consulted. -/
theorem c5_gap_fill_source_order (o p w : SurfData) (rnd : Bool)
    (h1 : calculate_data_quality_score o < calculate_data_quality_score w)
    (h2 : calculate_data_quality_score p < calculate_data_quality_score w) :
    (merge_triple_ai_data (some o) (some p) (some w) rnd).wave_data =
      (if w.wave_data = [] then (if o.wave_data ≠ [] then o.wave_data else p.wave_data)
       else w.wave_data) ∧
    (merge_triple_ai_data (some o) (some p) (some w) rnd).period_data =
      (if w.period_data = [] then (if o.period_data ≠ [] then o.period_data else p.period_data)
       else w.period_data) ∧
    (merge_triple_ai_data (some o) (some p) (some w) rnd).power_data =
      (if w.power_data = [] then (if o.power_data ≠ [] then o.power_data else p.power_data)
       else w.power_data) ∧
    (merge_triple_ai_data (some o) (some p) (some w) rnd).wind_data =
      (if w.wind_data = [] then (if o.wind_data ≠ [] then o.wind_data else p.wind_data)
       else w.wind_data) := by
  have hsc : scored_sources (some o) (some p) (some w) =
      [(o, "OpenAI", calculate_data_quality_score o),
       (p, "DeepSeek", calculate_data_quality_score p),
       (w, "Windy API", calculate_data_quality_score w)] := by
    simp [scored_sources, maybeScore]
  have hpm : pyMaxByScore (o, "OpenAI", calculate_data_quality_score o)
      [(p, "DeepSeek", calculate_data_quality_score p),
       (w, "Windy API", calculate_data_quality_score w)] =
      (w, "Windy API", calculate_data_quality_score w) :=
    pyMaxByScore_pair_last _ _ _ h1 h2
  have hbest : best_of (some o) (some p) (some w) =
      some (w, "Windy API", calculate_data_quality_score w) := by
    simp only [best_of, hsc, hpm]
  rw [merge_eq_of_best _ _ _ rnd _ hbest, hsc]
  exact ⟨mergeFromBest_three_field o p w _ _ _ _ (fun m x => fillFrom_wave _ m x) rfl,
         mergeFromBest_three_field o p w _ _ _ _ (fun m x => fillFrom_period _ m x) rfl,
         mergeFromBest_three_field o p w _ _ _ _ (fun m x => fillFrom_power _ m x) rfl,
         mergeFromBest_three_field o p w _ _ _ _ (fun m x => fillFrom_wind _ m x) rfl⟩

/-- Witness for claim C5: the amended theorem at the concrete scenario of
the counterexample. -/
theorem c5_gap_fill_source_order_witness :
    (merge_triple_ai_data (some oC5) (some dC5) (some wC5) true).wave_data =
      (if wC5.wave_data = [] then (if oC5.wave_data ≠ [] then oC5.wave_data else dC5.wave_data)
       else wC5.wave_data) ∧
    (merge_triple_ai_data (some oC5) (some dC5) (some wC5) true).period_data =
      (if wC5.period_data = [] then
        (if oC5.period_data ≠ [] then oC5.period_data else dC5.period_data)
       else wC5.period_data) ∧
    (merge_triple_ai_data (some oC5) (some dC5) (some wC5) true).power_data =
      (if wC5.power_data = [] then (if oC5.power_data ≠ [] then oC5.power_data else dC5.power_data)
       else wC5.power_data) ∧
    (merge_triple_ai_data (some oC5) (some dC5) (some wC5) true).wind_data =
      (if wC5.wind_data = [] then (if oC5.wind_data ≠ [] then oC5.wind_data else dC5.wind_data)
       else wC5.wind_data) :=
  c5_gap_fill_source_order oC5 dC5 wC5 true (by decide) (by decide)

/-! ### Claim C9 -/

/-- Claim C9 counterexample: a session in AwaitingAcknowledgement is not in
the Active phase, yet an image received there is processed, not refused -
the refusal check looks only at the stored active flag, which is still
true while feedback is awaited. -/
theorem c9_counterexample :
    sessionPhase ackState ≠ Phase.Active ∧
    sessionPhase ackState = Phase.AwaitingAck ∧
    (handle_photo ackState none dateX).2 = PhotoOutcome.processed defaultSpot dateX ∧
    (handle_photo ackState none dateX).2 ≠ PhotoOutcome.refused := by
  decide

/-- Claim C9 amended: an image is refused with the fixed reply and with the
stored state completely unchanged exactly when the stored active flag is
falsy (the Idle phase); when the active flag is true - which includes the
whole AwaitingAcknowledgement phase - the image is processed instead. -/
theorem c9_refusal_iff_inactive (st : Option ChatState) (caption : Option String) (today : String) :
    ((stateOf st).active = false →
      (handle_photo st caption today).2 = PhotoOutcome.refused ∧
      (handle_photo st caption today).1 = st) ∧
    ((stateOf st).active = true →
      (handle_photo st caption today).2 ≠ PhotoOutcome.refused) := by
  constructor
  · intro h
    unfold handle_photo
    rw [if_pos (by simp [h])]
    exact ⟨rfl, rfl⟩
  · intro h
    unfold handle_photo
    rw [if_neg (by simp [h])]
    simp

/-- Witness for claim C9: the theorem applied at a concrete inactive state
(refusal, state unchanged) and at a concrete active state (no refusal). -/
theorem c9_refusal_iff_inactive_witness :
    ((handle_photo idleState none dateX).2 = PhotoOutcome.refused ∧
     (handle_photo idleState none dateX).1 = idleState) ∧
    (handle_photo activeState none dateX).2 ≠ PhotoOutcome.refused :=
  ⟨(c9_refusal_iff_inactive idleState none dateX).1 (by decide),
   (c9_refusal_iff_inactive activeState none dateX).2 (by decide)⟩

end SurfHunter
